import Mathlib

/-!
Verification of the simulated chain adapter (`relayer/src/chain/mock.rs`):
the `MockChain` implementation of the `Chain` contract, backed by an
in-memory Ledger (`MockContext`).  Pure functions of the source are
translated to Lean functions; the stateful Ledger is passed explicitly;
fallible code returns `Except`; Rust panics (`unimplemented!()`) appear as
the `RustOutcome.panics` outcome.
-/

namespace Hermes

/-- Rust `std::time::Duration`, modelled at millisecond granularity (the
finest unit this code uses: `from_millis(3000)`). -/
abbrev Duration := Nat

def Duration.from_secs (s : Nat) : Duration := s * 1000

def Duration.from_millis (m : Nat) : Duration := m

/-- An IBC height: revision number and revision height (`ibc::Height`). -/
structure Height where
  revision_number : Nat
  revision_height : Nat
deriving DecidableEq, Repr

def Height.new (revision_number revision_height : Nat) : Height :=
  ⟨revision_number, revision_height⟩

def Height.zero : Height := ⟨0, 0⟩

/-- Advancing a chain by one block increments the revision height. -/
def Height.increment (h : Height) : Height :=
  ⟨h.revision_number, h.revision_height + 1⟩

/-- Revision-major ordering on heights. -/
def Height.le (a b : Height) : Prop :=
  a.revision_number < b.revision_number ∨
    (a.revision_number = b.revision_number ∧
      a.revision_height ≤ b.revision_height)

instance (a b : Height) : Decidable (Height.le a b) := by
  unfold Height.le
  exact inferInstance

/-- Reads the decimal digits of a chain-id component, `none` when the
component is empty or not all digits. -/
def digitsToNat? (cs : List Char) : Option Nat :=
  if cs ≠ [] ∧ cs.all Char.isDigit then
    some (cs.foldl (fun acc c => 10 * acc + (c.toNat - 48)) 0)
  else none

/-- A chain identifier: the full string plus the revision/version number
embedded in it (`ibc::ics24_host::identifier::ChainId`). -/
structure ChainId where
  id : String
  version : Nat
deriving DecidableEq, Repr

/-- Modelled from the spec: chain identifiers follow a `name-version`
grammar ("must parse into the expected identifier grammar"); the version is
the decimal number after the last dash, `0` when that component is not a
number. -/
def ChainId.from_str (s : String) : ChainId :=
  let tailComponent :=
    (s.toList.reverse.takeWhile (fun c => c ≠ '-')).reverse
  ⟨s, (digitsToNat? tailComponent).getD 0⟩

def ChainId.to_string (c : ChainId) : String := c.id

/-- Trust threshold fraction; the default is 1/3. -/
structure TrustThreshold where
  numerator : Nat
  denominator : Nat
deriving DecidableEq, Repr

def TrustThreshold.default : TrustThreshold := ⟨1, 3⟩

/-- The relayer-side static configuration of a chain
(`relayer/src/config.rs::ChainConfig`); `account_pfx` and `store_pfx`
embed the source's `account_prefix` and `store_prefix` fields. -/
structure ChainConfig where
  id : ChainId
  rpc_addr : String
  grpc_addr : String
  account_pfx : String
  key_name : String
  store_pfx : String
  client_ids : List String
  gas : Nat
  clock_drift : Duration
  trusting_period : Duration
  trust_threshold : TrustThreshold
  peers : Option Unit
deriving DecidableEq, Repr

/-- Modelled from the spec: "proof specs = a default set" — the source
passes `default_consensus_params()`; the value is opaque to this core. -/
inductive ConsensusParams where
  | default_set
deriving DecidableEq, Repr

def default_consensus_params : ConsensusParams := .default_set

/-- The Tendermint client state
(`ibc::ics07_tendermint::client_state::ClientState`). -/
structure TendermintClientState where
  chain_id : String
  trust_threshold : TrustThreshold
  trusting_period : Duration
  unbonding_period : Duration
  max_clock_drift : Duration
  latest_height : Height
  frozen_height : Height
  consensus_params : ConsensusParams
  upgrade_path : String
  allow_update_after_expiry : Bool
  allow_update_after_misbehaviour : Bool
deriving DecidableEq, Repr

/-- Validation failure of `ClientState::new`. -/
inductive ClientStateError where
  | invalidTrustingPeriod
deriving DecidableEq, Repr

/-- Modelled from the spec: `ClientState::new` "fails with
`BuildClientStateFailure` if the underlying construction rejects the
parameter combination (e.g., non-positive trusting period)"; the rejected
combination named by the spec is a non-positive (here: zero) trusting
period. -/
def TendermintClientState.new (chain_id : String)
    (trust_threshold : TrustThreshold)
    (trusting_period unbonding_period max_clock_drift : Duration)
    (latest_height frozen_height : Height)
    (consensus_params : ConsensusParams) (upgrade_path : String)
    (allow_update_after_expiry allow_update_after_misbehaviour : Bool) :
    Except ClientStateError TendermintClientState :=
  if trusting_period = 0 then
    .error .invalidTrustingPeriod
  else
    .ok { chain_id, trust_threshold, trusting_period, unbonding_period,
          max_clock_drift, latest_height, frozen_height, consensus_params,
          upgrade_path, allow_update_after_expiry,
          allow_update_after_misbehaviour }

/-- A Tendermint block header, reduced to the attributes this core reads
(timestamp and state commitment, per the spec's ConsensusState row). -/
structure Header where
  chain_id : String
  height : Nat
  time : Nat
  app_hash : List Nat
deriving DecidableEq, Repr

/-- A signed header: the header plus (opaque) commit data. -/
structure SignedHeader where
  header : Header
deriving DecidableEq, Repr

/-- A light block (`tendermint_testgen::light_block::TMLightBlock`):
signed header plus validator data, opaque beyond header extraction. -/
structure TMLightBlock where
  signed_header : SignedHeader
  validators : List String
deriving DecidableEq, Repr

/-- The Tendermint consensus state
(`ibc::ics07_tendermint::consensus_state::ConsensusState`). -/
structure TendermintConsensusState where
  timestamp : Nat
  root : List Nat
deriving DecidableEq, Repr

/-- Modelled from the spec: `ConsensusState::from(header)` "derives a
ConsensusState purely from the light block's header" — timestamp and
commitment root are read off the header. -/
def TendermintConsensusState.fromHeader (h : Header) :
    TendermintConsensusState :=
  ⟨h.time, h.app_hash⟩

abbrev ClientId := String

/-- Mock client state, the non-Tendermint variant a Ledger record can
hold. -/
structure MockClientState where
  latest_height : Height
deriving DecidableEq, Repr

/-- The tagged union over client-state kinds
(`ibc::ics02_client::client_def::AnyClientState`). -/
inductive AnyClientState where
  | Tendermint (cs : TendermintClientState)
  | Mock (cs : MockClientState)
deriving DecidableEq, Repr

/-- An error raised by the Ledger while processing a message batch. -/
inductive LedgerError where
  | transactionFailed (type_url : String)
deriving DecidableEq, Repr

/-- The relayer error kinds this core produces (`relayer/src/error.rs`). -/
inductive ErrorKind where
  | Bootstrap
  | Rpc
  | BuildClientStateFailure
  | EmptyResponseValue
  | Query
deriving DecidableEq, Repr

/-- The context attached to an error kind (`Kind::...().context(e)`). -/
inductive ErrorContext where
  | empty
  | ledgerErr (e : LedgerError)
  | clientErr (e : ClientStateError)
  | text (s : String)
deriving DecidableEq, Repr

/-- A relayer error: a kind plus attached context. -/
structure Error where
  kind : ErrorKind
  ctx : ErrorContext
deriving DecidableEq, Repr

/-- An opaque relayer message (`prost_types::Any`): binary type tag plus
payload.  Modelled from the spec: the core "does not interpret payload;
forwarded verbatim to the Ledger"; whether the Ledger accepts an
individual message is abstracted into the `well_formed` tag. -/
structure Msg where
  type_url : String
  well_formed : Bool
deriving DecidableEq, Repr

/-- Host type of the mock context (`ibc::mock::host::HostType`). -/
inductive HostType where
  | Mock
  | SyntheticTendermint
deriving DecidableEq, Repr

/-- Modelled from the spec: the Ledger (`ibc::mock::context::MockContext`),
"an in-memory state machine holding chain height ... and per-client
state/consensus-state records; accepts a batch of opaque messages and
applies them, advancing height; answers 'give me the full client state for
client X' queries". -/
structure MockContext where
  host_chain_id : ChainId
  host_type : HostType
  max_history_size : Nat
  latest_height : Height
  clients : List (ClientId × AnyClientState)
deriving DecidableEq, Repr

/-- Modelled from the spec: `MockContext::new` initializes the in-memory
Ledger "at a fixed starting height and validator-set size"; the starting
height is the one supplied. -/
def MockContext.new (host_chain_id : ChainId) (host_type : HostType)
    (max_history_size : Nat) (latest_height : Height) : MockContext :=
  { host_chain_id, host_type, max_history_size, latest_height,
    clients := [] }

/-- Modelled from the spec: the Ledger "answers 'give me the full client
state for client X' queries ... the Ledger always answers with its latest
stored record". -/
def MockContext.query_client_full_state (ctx : MockContext)
    (client_id : ClientId) : Option AnyClientState :=
  (ctx.clients.find? (fun p => p.1 == client_id)).map Prod.snd

def MockContext.query_latest_height (ctx : MockContext) : Height :=
  ctx.latest_height

/-- Modelled from the spec: the Ledger applies one message, advancing
height, or rejects it. -/
def MockContext.deliver (ctx : MockContext) (msg : Msg) :
    Except LedgerError MockContext :=
  if msg.well_formed then
    .ok { ctx with latest_height := ctx.latest_height.increment }
  else
    .error (.transactionFailed msg.type_url)

/-- Modelled from the spec: `ICS18Context::send` "accepts a batch of
opaque messages and applies them, advancing height"; the first rejected
message aborts the batch with the Ledger's error. -/
def MockContext.send (ctx : MockContext) (msgs : List Msg) :
    Except LedgerError MockContext :=
  match msgs with
  | [] => .ok ctx
  | m :: rest =>
    match ctx.deliver m with
    | .ok ctx1 => ctx1.send rest
    | .error e => .error e

/-- The simulated chain as the relayer sees it (`MockChain`). -/
structure MockChain where
  config : ChainConfig
  context : MockContext
deriving DecidableEq, Repr

/-- The outcome of a Rust call that may panic instead of returning. -/
inductive RustOutcome (α : Type) where
  | panics
  | ret (a : α)

abbrev Path := String

inductive QueryResponse where
  | mk
inductive KeyRing where
  | mk
inductive KeyEntry where
  | mk
inductive CommitmentPfx where
  | mk
inductive MerkleProof where
  | mk
inductive AccountId where
  | dummy

def get_dummy_account_id : AccountId := .dummy

/-- `MockChain::bootstrap`: builds the chain from the configuration and a
fresh Ledger at height `(config.id.version(), 20)` with validator-set
size 50. -/
def MockChain.bootstrap (config : ChainConfig) : Except Error MockChain :=
  .ok { config := config
        context := MockContext.new config.id .SyntheticTendermint 50
          (Height.new config.id.version 20) }

def MockChain.id (chain : MockChain) : ChainId := chain.config.id

/-- `MockChain::keybase`: `unimplemented!()`. -/
def MockChain.keybase (_chain : MockChain) : RustOutcome KeyRing := .panics

/-- `MockChain::query`: `unimplemented!()`. -/
def MockChain.query (_chain : MockChain) (_data : Path) (_height : Height)
    (_prove : Bool) : RustOutcome (Except Error QueryResponse) := .panics

/-- `MockChain::send_tx`: forwards the batch to the Ledger via
`ICS18Context::send`; success is the fixed marker `"OK"`, failure wraps
the Ledger's error as `Kind::Rpc`.  The updated chain is returned
explicitly (the source mutates `self`). -/
def MockChain.send_tx (chain : MockChain) (proto_msgs : List Msg) :
    Except Error (String × MockChain) :=
  match chain.context.send proto_msgs with
  | .ok ctx => .ok ("OK", { chain with context := ctx })
  | .error e => .error ⟨.Rpc, .ledgerErr e⟩

/-- `MockChain::get_signer`: the fixed dummy account id. -/
def MockChain.get_signer (_chain : MockChain) : Except Error AccountId :=
  .ok get_dummy_account_id

/-- `MockChain::get_key`: `unimplemented!()`. -/
def MockChain.get_key (_chain : MockChain) :
    RustOutcome (Except Error KeyEntry) := .panics

/-- `MockChain::build_client_state`: a fresh ClientState from the chain's
own config and the supplied height — unbonding period is the trusting
period plus 1000 seconds, max clock drift 3000 ms, frozen height zero,
upgrade path `"upgrade/upgradedClient"`, both allow-update flags false;
a construction failure is wrapped as `Kind::BuildClientStateFailure`. -/
def MockChain.build_client_state (chain : MockChain) (height : Height) :
    Except Error TendermintClientState :=
  match TendermintClientState.new chain.id.to_string
      chain.config.trust_threshold
      chain.config.trusting_period
      (chain.config.trusting_period + Duration.from_secs 1000)
      (Duration.from_millis 3000)
      height
      Height.zero
      default_consensus_params
      "upgrade/upgradedClient"
      false
      false with
  | .ok client_state => .ok client_state
  | .error e => .error ⟨.BuildClientStateFailure, .clientErr e⟩

/-- `MockChain::build_consensus_state`: `ConsensusState::from` of the
light block's signed header's header; infallible. -/
def MockChain.build_consensus_state (_chain : MockChain)
    (light_block : TMLightBlock) : Except Error TendermintConsensusState :=
  .ok (.fromHeader light_block.signed_header.header)

/-- `MockChain::build_header`: `unimplemented!()`. -/
def MockChain.build_header (_chain : MockChain)
    (_trusted_light_block _target_light_block : TMLightBlock) :
    RustOutcome (Except Error Header) := .panics

/-- `MockChain::query_latest_height`: delegates to the Ledger. -/
def MockChain.query_latest_height (chain : MockChain) :
    Except Error Height :=
  .ok chain.context.query_latest_height

/-- `MockChain::query_client_state`: asks the Ledger for client
`client_id`'s full state (the height argument is ignored); absence is
`Kind::EmptyResponseValue`, a non-Tendermint variant is `Kind::Query`
with context `"unexpected client state type"`. -/
def MockChain.query_client_state (chain : MockChain) (client_id : ClientId)
    (_height : Height) : Except Error TendermintClientState :=
  match chain.context.query_client_full_state client_id with
  | none => .error ⟨.EmptyResponseValue, .empty⟩
  | some any_state =>
    match any_state with
    | .Tendermint client_state => .ok client_state
    | .Mock _ => .error ⟨.Query, .text "unexpected client state type"⟩

/-- `MockChain::query_commitment_prefix` (the name shortened for Lean):
`unimplemented!()`. -/
def MockChain.query_commitment_pfx (_chain : MockChain) :
    RustOutcome (Except Error CommitmentPfx) := .panics

/-- `MockChain::proven_client_state`: `unimplemented!()`. -/
def MockChain.proven_client_state (_chain : MockChain)
    (_client_id : ClientId) (_height : Height) :
    RustOutcome (Except Error (TendermintClientState × MerkleProof)) :=
  .panics

/-- `MockChain::proven_client_consensus`: `unimplemented!()`. -/
def MockChain.proven_client_consensus (_chain : MockChain)
    (_client_id : ClientId) (_consensus_height _height : Height) :
    RustOutcome (Except Error (TendermintConsensusState × MerkleProof)) :=
  .panics

/-- `test_utils::get_basic_chain_config`: the minimal test configuration
(14-day trusting period, 5-second clock drift, default trust
threshold). -/
def get_basic_chain_config (id : String) : ChainConfig :=
  { id := ChainId.from_str id
    rpc_addr := "35.192.61.41:26656"
    grpc_addr := ""
    account_pfx := ""
    key_name := ""
    store_pfx := ""
    client_ids := []
    gas := 0
    clock_drift := Duration.from_secs 5
    trusting_period := Duration.from_secs (14 * 24 * 60 * 60)
    trust_threshold := TrustThreshold.default
    peers := none }

end Hermes

namespace Hermes

/-! Test fixtures: the spec's scenario chain (`"testchain-1"`), a second
chain, and sample Ledger contents and messages. -/

def testConfig : ChainConfig := get_basic_chain_config "testchain-1"

def testChain : MockChain :=
  { config := testConfig
    context := MockContext.new testConfig.id .SyntheticTendermint 50
      (Height.new testConfig.id.version 20) }

def otherConfig : ChainConfig := get_basic_chain_config "otherchain-7"

def otherChain : MockChain :=
  { config := otherConfig
    context := MockContext.new otherConfig.id .SyntheticTendermint 50
      (Height.new otherConfig.id.version 20) }

def sampleMockClientState : MockClientState := ⟨Height.new 0 10⟩

def chainWithMockClient : MockChain :=
  { testChain with
    context := { testChain.context with
      clients := [("07-tendermint-0", .Mock sampleMockClientState)] } }

def goodMsg : Msg := ⟨"/ibc.core.client.v1.MsgCreateClient", true⟩

def badMsg : Msg := ⟨"/ibc.core.client.v1.MsgGarbage", false⟩

def testChainAfterOne : MockChain :=
  { testChain with
    context := { testChain.context with
      latest_height := Height.new 1 21 } }

def testClientState : TendermintClientState :=
  { chain_id := "testchain-1"
    trust_threshold := TrustThreshold.default
    trusting_period := 1209600000
    unbonding_period := 1210600000
    max_clock_drift := 3000
    latest_height := Height.new 1 20
    frozen_height := Height.zero
    consensus_params := .default_set
    upgrade_path := "upgrade/upgradedClient"
    allow_update_after_expiry := false
    allow_update_after_misbehaviour := false }

def sampleHeader : Header := ⟨"testchain-1", 20, 1000, [1, 2, 3]⟩

def sampleLightBlock : TMLightBlock := ⟨⟨sampleHeader⟩, ["val1"]⟩

def sampleLightBlock2 : TMLightBlock := ⟨⟨sampleHeader⟩, ["val2"]⟩

theorem Height.le_refl (a : Height) : Height.le a a :=
  Or.inr ⟨rfl, Nat.le_refl _⟩

theorem Height.le_trans {a b c : Height} (hab : Height.le a b)
    (hbc : Height.le b c) : Height.le a c := by
  unfold Height.le at *
  omega

/-- Each successfully delivered batch leaves the Ledger's height at least
where it was. -/
theorem send_preserves_height_le (msgs : List Msg) :
    ∀ ctx ctx' : MockContext, ctx.send msgs = .ok ctx' →
      Height.le ctx.latest_height ctx'.latest_height := by
  induction msgs with
  | nil =>
    intro ctx ctx' h
    simp [MockContext.send] at h
    subst h
    exact Height.le_refl _
  | cons m rest ih =>
    intro ctx ctx' h
    by_cases hw : m.well_formed
    · simp [MockContext.send, MockContext.deliver, hw] at h
      refine Height.le_trans ?_ (ih _ _ h)
      exact Or.inr ⟨rfl, Nat.le_succ _⟩
    · simp [MockContext.send, MockContext.deliver, hw] at h

/-- C1: a successful `build_client_state(h)` returns a ClientState whose
unbonding period is the trusting period plus the fixed 1000-second safety
margin (hence strictly greater), whose frozen height is zero, whose latest
height is `h`, whose max clock drift is the fixed 3000 ms constant, and
whose two allow-update flags are both false. -/
theorem build_client_state_fields (chain : MockChain) (h : Height)
    (cs : TendermintClientState)
    (hok : chain.build_client_state h = .ok cs) :
    cs.unbonding_period =
      chain.config.trusting_period + Duration.from_secs 1000 ∧
    chain.config.trusting_period < cs.unbonding_period ∧
    cs.frozen_height = Height.zero ∧
    cs.latest_height = h ∧
    cs.max_clock_drift = Duration.from_millis 3000 ∧
    cs.allow_update_after_expiry = false ∧
    cs.allow_update_after_misbehaviour = false := by
  by_cases hz : chain.config.trusting_period = 0
  · simp [MockChain.build_client_state, TendermintClientState.new, hz]
      at hok
  · simp [MockChain.build_client_state, TendermintClientState.new, hz]
      at hok
    subst hok
    refine ⟨rfl, ?_, rfl, rfl, rfl, rfl, rfl⟩
    simp [Duration.from_secs]

/-- C1 witness: the scenario chain at height (1, 20). -/
theorem build_client_state_fields_witness :
    testClientState.unbonding_period =
      testChain.config.trusting_period + Duration.from_secs 1000 ∧
    testChain.config.trusting_period < testClientState.unbonding_period ∧
    testClientState.frozen_height = Height.zero ∧
    testClientState.latest_height = Height.new 1 20 ∧
    testClientState.max_clock_drift = Duration.from_millis 3000 ∧
    testClientState.allow_update_after_expiry = false ∧
    testClientState.allow_update_after_misbehaviour = false :=
  build_client_state_fields testChain (Height.new 1 20) testClientState rfl

/-- C2: `query_client_state(client_id, h)` fails with
`EmptyResponseValue` when the Ledger stores no client state for
`client_id`, and fails with a `Query` error when a stored state exists
but is not the Tendermint variant; the result is an error (never a
value) in either case. -/
theorem query_client_state_error_cases (chain : MockChain)
    (client_id : ClientId) (h : Height) :
    (chain.context.query_client_full_state client_id = none →
      chain.query_client_state client_id h =
        .error ⟨.EmptyResponseValue, .empty⟩) ∧
    (∀ mcs : MockClientState,
      chain.context.query_client_full_state client_id =
        some (.Mock mcs) →
      chain.query_client_state client_id h =
        .error ⟨.Query, .text "unexpected client state type"⟩) := by
  constructor
  · intro hnone
    simp [MockChain.query_client_state, hnone]
  · intro mcs hmock
    simp [MockChain.query_client_state, hmock]

/-- C2 witness: an unknown client id on the scenario chain, and a known
id holding a Mock-variant state. -/
theorem query_client_state_error_cases_witness :
    testChain.query_client_state "07-tendermint-0" (Height.new 1 20) =
      .error ⟨.EmptyResponseValue, .empty⟩ ∧
    chainWithMockClient.query_client_state "07-tendermint-0"
        (Height.new 1 20) =
      .error ⟨.Query, .text "unexpected client state type"⟩ :=
  ⟨(query_client_state_error_cases testChain "07-tendermint-0"
      (Height.new 1 20)).1 rfl,
   (query_client_state_error_cases chainWithMockClient "07-tendermint-0"
      (Height.new 1 20)).2 sampleMockClientState rfl⟩

/-- C3: `send_tx(msgs)` returns the fixed success marker `"OK"` exactly
when the Ledger accepts the batch (the empty batch always succeeds), and
returns an `Rpc`-kind error wrapping the Ledger's error when the Ledger
rejects it; the embedding is a total function, so no invocation
panics. -/
theorem send_tx_result_mapping (chain : MockChain) (msgs : List Msg) :
    (∀ ctx, chain.context.send msgs = .ok ctx →
      chain.send_tx msgs = .ok ("OK", { chain with context := ctx })) ∧
    (∀ e, chain.context.send msgs = .error e →
      chain.send_tx msgs = .error ⟨.Rpc, .ledgerErr e⟩) ∧
    chain.send_tx [] = .ok ("OK", chain) := by
  refine ⟨?_, ?_, rfl⟩
  · intro ctx hsend
    simp [MockChain.send_tx, hsend]
  · intro e hsend
    simp [MockChain.send_tx, hsend]

/-- C3 witness: the empty batch succeeds with marker `"OK"`; a batch
the Ledger rejects yields the `Rpc` error wrapping the Ledger's error. -/
theorem send_tx_result_mapping_witness :
    testChain.send_tx [] = .ok ("OK", testChain) ∧
    testChain.send_tx [badMsg] =
      .error ⟨.Rpc, .ledgerErr
        (.transactionFailed "/ibc.core.client.v1.MsgGarbage")⟩ :=
  ⟨(send_tx_result_mapping testChain []).2.2,
   (send_tx_result_mapping testChain [badMsg]).2.1
     (.transactionFailed "/ibc.core.client.v1.MsgGarbage") rfl⟩

/-- C4 counterexample: `bootstrap` never returns an error — there is no
configuration (invalid or otherwise) on which it returns a
`Bootstrap`-kind error instead of a chain instance. -/
theorem bootstrap_never_errors :
    ¬ ∃ (cfg : ChainConfig) (e : Error),
      MockChain.bootstrap cfg = .error e := by
  rintro ⟨cfg, e, h⟩
  simp [MockChain.bootstrap] at h

/-- C4 (amended): `bootstrap(config)` succeeds on every configuration,
returning the chain instance built from the configuration and a fresh
Ledger; the `Bootstrap` error path for invalid configurations is never
taken by the simulated chain (configuration validity is established
before `bootstrap` is called). -/
theorem bootstrap_always_ok (config : ChainConfig) :
    MockChain.bootstrap config =
      .ok { config := config
            context := MockContext.new config.id .SyntheticTendermint 50
              (Height.new config.id.version 20) } := rfl

/-- C5: `query_latest_height()` directly after `bootstrap(cfg)` returns
exactly the initial height `(cfg.id.version, 20)`; in particular the
`"testchain-1"` chain reports latest height `(1, 20)`, and
`build_client_state` at that height yields a ClientState with
`latest_height = (1, 20)` and `frozen_height = 0`. -/
theorem query_latest_height_after_bootstrap (cfg : ChainConfig)
    (chain : MockChain) (hb : MockChain.bootstrap cfg = .ok chain) :
    chain.query_latest_height = .ok (Height.new cfg.id.version 20) ∧
    (testChain.query_latest_height = .ok (Height.new 1 20) ∧
     ∃ cs, testChain.build_client_state (Height.new 1 20) = .ok cs ∧
       cs.latest_height = Height.new 1 20 ∧
       cs.frozen_height = Height.zero) := by
  refine ⟨?_, rfl, testClientState, rfl, rfl, rfl⟩
  simp [MockChain.bootstrap] at hb
  subst hb
  rfl

/-- C5 witness: the scenario chain itself. -/
theorem query_latest_height_after_bootstrap_witness :
    testChain.query_latest_height =
      .ok (Height.new testConfig.id.version 20) ∧
    (testChain.query_latest_height = .ok (Height.new 1 20) ∧
     ∃ cs, testChain.build_client_state (Height.new 1 20) = .ok cs ∧
       cs.latest_height = Height.new 1 20 ∧
       cs.frozen_height = Height.zero) :=
  query_latest_height_after_bootstrap testConfig testChain rfl

/-- C6: across any successful `send_tx` call, the height reported by
`query_latest_height()` is monotonically non-decreasing — the height
after the call is at least the height before it (and hence across any
sequence of successful calls, by chaining). -/
theorem send_tx_height_monotone (chain chain' : MockChain)
    (msgs : List Msg) (s : String) (h0 h1 : Height)
    (hok : chain.send_tx msgs = .ok (s, chain'))
    (hq0 : chain.query_latest_height = .ok h0)
    (hq1 : chain'.query_latest_height = .ok h1) :
    Height.le h0 h1 := by
  simp [MockChain.query_latest_height, MockContext.query_latest_height]
    at hq0 hq1
  subst hq0
  subst hq1
  unfold MockChain.send_tx at hok
  cases hsend : chain.context.send msgs with
  | ok ctx =>
    rw [hsend] at hok
    simp at hok
    obtain ⟨-, hchain⟩ := hok
    subst hchain
    exact send_preserves_height_le msgs _ _ hsend
  | error e =>
    rw [hsend] at hok
    simp at hok

/-- C6 witness: one accepted message advances the scenario chain from
height (1, 20) to (1, 21). -/
theorem send_tx_height_monotone_witness :
    Height.le (Height.new 1 20) (Height.new 1 21) :=
  send_tx_height_monotone testChain testChainAfterOne [goodMsg] "OK"
    (Height.new 1 20) (Height.new 1 21) rfl rfl rfl

/-- C7: the result of `query_client_state` is independent of the height
argument and depends only on the Ledger's (latest) stored record for the
client id: two calls over the same stored record agree for any pair of
heights. -/
theorem query_client_state_height_independent
    (chain chain' : MockChain) (client_id : ClientId) (h1 h2 : Height)
    (hsame : chain.context.query_client_full_state client_id =
      chain'.context.query_client_full_state client_id) :
    chain.query_client_state client_id h1 =
      chain'.query_client_state client_id h2 := by
  unfold MockChain.query_client_state
  rw [hsame]

/-- C7 witness: two different chains with the same (empty) client store,
queried at different heights, answer identically. -/
theorem query_client_state_height_independent_witness :
    testChain.query_client_state "07-tendermint-0" (Height.new 1 20) =
      otherChain.query_client_state "07-tendermint-0" Height.zero :=
  query_client_state_height_independent testChain otherChain
    "07-tendermint-0" (Height.new 1 20) Height.zero rfl

/-- C8: `build_consensus_state(light_block)` never returns an error, and
its result is derived purely from the light block's signed header's
header: two calls on any chains and light blocks with the same header
agree. -/
theorem build_consensus_state_total (chain chain' : MockChain)
    (lb lb' : TMLightBlock)
    (hhdr : lb.signed_header.header = lb'.signed_header.header) :
    chain.build_consensus_state lb =
      .ok (TendermintConsensusState.fromHeader lb.signed_header.header) ∧
    chain.build_consensus_state lb = chain'.build_consensus_state lb' := by
  refine ⟨rfl, ?_⟩
  simp [MockChain.build_consensus_state, hhdr]

/-- C8 witness: two chains and two light blocks sharing a header. -/
theorem build_consensus_state_total_witness :
    testChain.build_consensus_state sampleLightBlock =
      .ok (TendermintConsensusState.fromHeader
        sampleLightBlock.signed_header.header) ∧
    testChain.build_consensus_state sampleLightBlock =
      otherChain.build_consensus_state sampleLightBlock2 :=
  build_consensus_state_total testChain otherChain sampleLightBlock
    sampleLightBlock2 rfl

/-- C9: every operation the simulated chain does not implement —
`keybase`, `query`, `get_key`, `build_header`,
`query_commitment_prefix` (here `query_commitment_pfx`),
`proven_client_state`, `proven_client_consensus` — panics on every
invocation, and the panic outcome is distinct from every returned
value. -/
theorem unimplemented_ops_fail_fatally :
    (∀ chain : MockChain, chain.keybase = .panics) ∧
    (∀ (chain : MockChain) (data : Path) (height : Height) (pr : Bool),
      chain.query data height pr = .panics) ∧
    (∀ chain : MockChain, chain.get_key = .panics) ∧
    (∀ (chain : MockChain) (tb lb : TMLightBlock),
      chain.build_header tb lb = .panics) ∧
    (∀ chain : MockChain, chain.query_commitment_pfx = .panics) ∧
    (∀ (chain : MockChain) (client_id : ClientId) (h : Height),
      chain.proven_client_state client_id h = .panics) ∧
    (∀ (chain : MockChain) (client_id : ClientId) (ch h : Height),
      chain.proven_client_consensus client_id ch h = .panics) ∧
    (∀ (α : Type) (v : α), (RustOutcome.panics : RustOutcome α) ≠
      RustOutcome.ret v) := by
  refine ⟨fun _ => rfl, fun _ _ _ _ => rfl, fun _ => rfl,
    fun _ _ _ => rfl, fun _ => rfl, fun _ _ _ => rfl,
    fun _ _ _ _ => rfl, ?_⟩
  intro α v h
  exact RustOutcome.noConfusion h

/-- C10: for every configuration, the chain `bootstrap` builds starts at
revision height 20 with revision number equal to the version parsed from
the configured chain identifier, and `query_latest_height()` reports
exactly that height. -/
theorem bootstrap_initial_height_revision (cfg : ChainConfig)
    (chain : MockChain) (hb : MockChain.bootstrap cfg = .ok chain) :
    chain.context.latest_height.revision_height = 20 ∧
    chain.context.latest_height.revision_number = cfg.id.version ∧
    chain.query_latest_height = .ok (Height.new cfg.id.version 20) := by
  simp [MockChain.bootstrap] at hb
  subst hb
  exact ⟨rfl, rfl, rfl⟩

/-- C10 witness: the scenario chain, whose id `"testchain-1"` parses to
version 1. -/
theorem bootstrap_initial_height_revision_witness :
    testChain.context.latest_height.revision_height = 20 ∧
    testChain.context.latest_height.revision_number =
      testConfig.id.version ∧
    testChain.query_latest_height =
      .ok (Height.new testConfig.id.version 20) :=
  bootstrap_initial_height_revision testConfig testChain rfl

end Hermes
